import Mathlib

/-!
Shallow embedding of the authorization and booking-lifecycle core of the
Agape booking backend (Express + Mongoose), together with theorems checking
the natural-language specification against it.

Sources embedded:
  backend/middleware/auth.js, backend/middleware/adminAuth.js,
  backend/routes/auth.routes.js, backend/routes/bookings.routes.js,
  backend/routes/admin.routes.js, backend/models/User.js,
  backend/models/Booking.js.

External collaborators (the JS runtime's `Date` parser, bcrypt, jwt) are
modelled as explicit function parameters: `parseDate : String → Option Int`
stands for `new Date(s)` returning an epoch timestamp or an Invalid Date
(`none`), `compare` for `bcrypt.compare`, and `verify` for `jwt.verify`
returning the decoded payload or `none` when the signature check throws.
The document store is an association list from id strings to records.
-/

namespace Agape

/-- A JSON-like value, used to model the plain objects that Express
serializes to clients (`toObject()` results after field deletion). -/
inductive JVal where
  | str  (s : String)
  | num  (n : Int)
  | bool (b : Bool)
  | null
deriving DecidableEq, Repr

/-- A user document, after backend/models/User.js.  `bannedUntil` is a
nullable Date (epoch milliseconds). -/
structure User where
  firstName : String
  lastName : String
  username : String
  email : String
  phone : String
  country : String
  passwordHash : String
  dob : String
  gender : String
  role : String
  isBanned : Bool
  banReason : String
  bannedUntil : Option Int
deriving DecidableEq, Repr

/-- The user collection: id → document. -/
abbrev UserStore := List (String × User)

/-- Model of `User.findById(id)`. -/
def findById (store : UserStore) (id : String) : Option User :=
  (store.find? (fun p => p.1 = id)).map Prod.snd

/-- Model of `User.findOne({ email })`.  Returns the `_id` together with
the document, since login puts `user._id.toString()` into the token. -/
def findByEmail (store : UserStore) (email : String) : Option (String × User) :=
  store.find? (fun p => p.2.email = email)

/-- Model of `User.findOne({ username })`. -/
def findByUsername (store : UserStore) (username : String) : Option User :=
  (store.find? (fun p => p.2.username = username)).map Prod.snd

/-- `s.toLowerCase()`. -/
def strLower (s : String) : String := String.mk (s.toList.map Char.toLower)

/-- `s.trim()`: strip whitespace from both ends (kernel-reducible model of
the library `trim`). -/
def strTrim (s : String) : String :=
  String.mk (((s.toList.dropWhile Char.isWhitespace).reverse.dropWhile
    Char.isWhitespace).reverse)

/-- The decoded jwt payload signed at login:
`{ id, email, username, role }`. -/
structure TokenPayload where
  id : String
  email : String
  username : String
  role : String
deriving DecidableEq, Repr

/-- Plain-object form of a user document (`userDoc.toObject()`), as the
association list Express would serialize. -/
def User.toObject (u : User) : List (String × JVal) :=
  [("firstName", .str u.firstName), ("lastName", .str u.lastName),
   ("username", .str u.username), ("email", .str u.email),
   ("phone", .str u.phone), ("country", .str u.country),
   ("passwordHash", .str u.passwordHash), ("dob", .str u.dob),
   ("gender", .str u.gender), ("role", .str u.role),
   ("isBanned", .bool u.isBanned), ("banReason", .str u.banReason),
   ("bannedUntil", match u.bannedUntil with | none => .null | some t => .num t)]

/-- `sanitizeUser` from backend/routes/auth.routes.js: copy the document's
plain object and `delete u.passwordHash`. -/
def sanitizeUser (u : User) : List (String × JVal) :=
  u.toObject.filter (fun kv => kv.1 ≠ "passwordHash")

/-- The bearer-token extraction `header.match(/^Bearer (.+)$/)` shared by
both guards (the capture group must be nonempty). -/
def matchBearer (header : String) : Option String :=
  if header.toList.take 7 = "Bearer ".toList ∧ header.toList.drop 7 ≠ [] then
    some (String.mk (header.toList.drop 7))
  else none

/-- Result of a middleware: either a short-circuited HTTP error response
(status code and message), or `next` with what it attached to `req`. -/
inductive GuardResult (α : Type) where
  | err  (status : Nat) (message : String)
  | next (attached : α)
deriving DecidableEq, Repr

/-- The admin guard, backend/middleware/adminAuth.js: extract the bearer
token, verify it (`verify` models `jwt.verify`; `none` = the verify throw
caught at line 45), require a truthy `payload.id`, re-fetch the user by id
from the store, 401 when absent, 403 when `role !== "admin"`, otherwise
call `next` with both the payload and the fresh document attached. -/
def adminAuth (verify : String → Option TokenPayload) (store : UserStore)
    (authHeader : Option String) : GuardResult (TokenPayload × User) :=
  match matchBearer (authHeader.getD "") with
  | none => .err 401 "Unauthorized"
  | some token =>
    match verify token with
    | none => .err 401 "Invalid or expired token"
    | some payload =>
      if payload.id = "" then .err 401 "Unauthorized"
      else
        match findById store payload.id with
        | none => .err 401 "Unauthorized"
        | some user =>
          if user.role ≠ "admin" then .err 403 "Forbidden: admin only"
          else .next (payload, user)

/-- Outcome of POST /login. -/
inductive LoginResult where
  | err    (status : Nat) (message : String)
  | banned (message : String) (reason : String) (banUntil : Option Int)
  | ok     (token : TokenPayload) (user : List (String × JVal))
deriving DecidableEq, Repr

/-- POST /api/users/login, backend/routes/auth.routes.js lines 151-201:
require both fields truthy, normalize the email, look the user up, reject
banned users with 403 before comparing the password, compare the password
(`compare` models `bcrypt.compare`), and sign a token on success. -/
def login (compare : String → String → Bool) (store : UserStore)
    (email password : String) : LoginResult :=
  if email = "" ∨ password = "" then .err 400 "Email and password required."
  else
    let normalizedEmail := strTrim (strLower email)
    match findByEmail store normalizedEmail with
    | none => .err 401 "Invalid credentials."
    | some (uid, user) =>
      if user.isBanned then
        .banned "Account is banned."
          (if user.banReason = "" then "No reason provided" else user.banReason)
          user.bannedUntil
      else if ¬ compare password user.passwordHash then
        .err 401 "Invalid credentials."
      else
        .ok ⟨uid, user.email, user.username, user.role⟩ (sanitizeUser user)

/-- A booking document, after backend/models/Booking.js.  `scheduledAt`
and `rescheduledTo` are Dates as epoch milliseconds; `rescheduledTo` is
nullable with schema default `null`. -/
structure Booking where
  user : String
  type : String
  duration : Int
  platform : String
  platformDetails : String
  scheduledAt : Int
  status : String
  notes : String
  adminNote : String
  rescheduledTo : Option Int
deriving DecidableEq, Repr

/-- The booking collection: id → document. -/
abbrev BookingStore := List (String × Booking)

/-- Model of `Booking.findById(id)`. -/
def findBookingById (store : BookingStore) (id : String) : Option Booking :=
  (store.find? (fun p => p.1 = id)).map Prod.snd

/-- Model of `booking.save()` after mutating a fetched document: replace
the document stored under `id`. -/
def saveBooking (store : BookingStore) (id : String) (b : Booking) : BookingStore :=
  store.map (fun p => if p.1 = id then (id, b) else p)

/-- `mongoose.Types.ObjectId.isValid` on a string: a 24-character hex
string, or any 12-character string. -/
def isValidObjectId (s : String) : Bool :=
  (s.length == 24 && s.toList.all (fun c => c.isDigit ||
      (('a' : Char) ≤ c && c ≤ 'f') || (('A' : Char) ≤ c && c ≤ 'F'))) ||
  s.length == 12

/-- JS truthiness of an optional string field (`undefined` and `""` are
falsy). -/
def truthyStr : Option String → Bool
  | none => false
  | some s => s ≠ ""

/-- JS truthiness of an optional number field (`undefined` and `0` are
falsy). -/
def truthyInt : Option Int → Bool
  | none => false
  | some n => n ≠ 0

/-- Request body of POST /api/bookings.  Absent fields are `none`;
`platformDetails` and `notes` default to `""` on destructuring. -/
structure CreateBody where
  type : Option String
  duration : Option Int
  platform : Option String
  platformDetails : String
  scheduledAt : Option String
  notes : String
deriving DecidableEq, Repr

/-- POST /api/bookings, backend/routes/bookings.routes.js lines 16-58:
require `type`, `duration`, `platform`, `scheduledAt` truthy, parse
`scheduledAt` (`parseDate` models `new Date`), and store a document with
`status: "pending"` and the schema defaults `adminNote = ""`,
`rescheduledTo = null`. -/
def createBooking (parseDate : String → Option Int) (userId : String)
    (b : CreateBody) : Except (Nat × String) Booking :=
  if ¬ (truthyStr b.type ∧ truthyInt b.duration ∧ truthyStr b.platform ∧
        truthyStr b.scheduledAt) then
    .error (400, "Missing required fields.")
  else
    match b.scheduledAt.bind parseDate with
    | none => .error (400, "Invalid scheduledAt date.")
    | some scheduledDate =>
      .ok { user := userId, type := b.type.getD "", duration := b.duration.getD 0,
            platform := b.platform.getD "", platformDetails := b.platformDetails,
            scheduledAt := scheduledDate, status := "pending", notes := b.notes,
            adminNote := "", rescheduledTo := none }

/-- PATCH /api/admin/bookings/:id, backend/routes/bookings.routes.js lines
131-167: reject ids that are not well-formed ObjectIds, 404 when the
booking is absent, then apply `approve`/`cancel`/`reschedule` (the latter
requiring a truthy `rescheduledTo` that parses to a valid Date), every
other action being a 400.  Returns the response together with the booking
store after the handler (unchanged on every error path, since the handler
returns before `booking.save()`). -/
def adminTransition (parseDate : String → Option Int) (store : BookingStore)
    (id : String) (action : Option String) (adminNote : String)
    (rescheduledTo : Option String) :
    Except (Nat × String) Booking × BookingStore :=
  if ¬ isValidObjectId id then (.error (400, "Invalid booking id"), store)
  else
    match findBookingById store id with
    | none => (.error (404, "Booking not found"), store)
    | some booking =>
      if action = some "approve" then
        let b := { booking with
                   status := "approved", adminNote := adminNote, rescheduledTo := none }
        (.ok b, saveBooking store id b)
      else if action = some "cancel" then
        let b := { booking with
                   status := "cancelled", adminNote := adminNote, rescheduledTo := none }
        (.ok b, saveBooking store id b)
      else if action = some "reschedule" then
        match (if truthyStr rescheduledTo then (rescheduledTo.getD "") |> parseDate
               else none) with
        | none => (.error (400, "Invalid rescheduledTo date"), store)
        | some dt =>
          let b := { booking with
                     status := "rescheduled", rescheduledTo := some dt, adminNote := adminNote }
          (.ok b, saveBooking store id b)
      else (.error (400, "Invalid action"), store)

/-- The booking-state invariant from the spec's data model: `rescheduledTo`
is non-null only while `status = "rescheduled"`. -/
def bookingInvariant (b : Booking) : Prop :=
  b.rescheduledTo ≠ none → b.status = "rescheduled"

/-- JS `parseInt(s, 10)`: skip leading whitespace, an optional sign, then a
maximal run of decimal digits; `none` models `NaN` (no digit found). -/
def parseIntJS (s : String) : Option Int :=
  let cs := s.toList.dropWhile (fun c => c = ' ' ∨ c = '\t' ∨ c = '\n' ∨ c = '\r')
  let signAndRest : Int × List Char :=
    match cs with
    | '-' :: r => (-1, r)
    | '+' :: r => (1, r)
    | r => (1, r)
  let ds := signAndRest.2.takeWhile Char.isDigit
  if ds = [] then none
  else some (signAndRest.1 * Int.ofNat (ds.foldl (fun a c => a * 10 + (c.toNat - 48)) 0))

/-- JS `x || dflt` on an optional query-string parameter (`undefined` and
`""` fall back to the default). -/
def jsOr (v : Option String) (dflt : String) : String :=
  match v with
  | none => dflt
  | some s => if s = "" then dflt else s

/-- `Math.max(a, x)` when `x` may be `NaN` (modelled `none`): NaN
propagates. -/
def jsMax (a : Int) (x : Option Int) : Option Int := x.map (max a)

/-- `Math.min(a, x)` when `x` may be `NaN`: NaN propagates. -/
def jsMin (a : Int) (x : Option Int) : Option Int := x.map (min a)

/-- `Math.max(1, parseInt(req.query.page || "1", 10))`, the effective page
of both admin listings. -/
def effectivePage (qpage : Option String) : Option Int :=
  jsMax 1 (parseIntJS (jsOr qpage "1"))

/-- `Math.min(100, Math.max(5, parseInt(req.query.limit || dflt, 10)))`,
the effective limit of both admin listings (`dflt` is `"50"` for bookings
and `"20"` for users). -/
def effectiveLimit (dflt : String) (qlimit : Option String) : Option Int :=
  jsMin 100 (jsMax 5 (parseIntJS (jsOr qlimit dflt)))

/-- Model of `User.findByIdAndUpdate(id, …, { new: true })`'s write-back:
replace the document stored under `id`. -/
def saveUser (store : UserStore) (id : String) (u : User) : UserStore :=
  store.map (fun p => if p.1 = id then (id, u) else p)

/-- DELETE /api/admin/users/:id, backend/routes/admin.routes.js lines
62-83: ObjectId validity, self-delete rejection, then
`findByIdAndDelete`.  Returns the response paired with the store after the
handler (unchanged on every error path). -/
def deleteUser (store : UserStore) (actorId targetId : String) :
    Except (Nat × String) Unit × UserStore :=
  if ¬ isValidObjectId targetId then (.error (400, "Invalid user id"), store)
  else if actorId = targetId then
    (.error (400, "Cannot delete your own admin account."), store)
  else
    match findById store targetId with
    | none => (.error (404, "User not found"), store)
    | some _ => (.ok (), store.filter (fun p => p.1 ≠ targetId))

/-- POST /api/admin/users/:id/ban, backend/routes/admin.routes.js lines
89-126: ObjectId validity, self-ban rejection, then set
`isBanned`/`banReason`/`bannedUntil` via `findByIdAndUpdate`.  JS would
store an Invalid Date when `until` is an unparsable truthy string; that is
modelled as `none` (no claim depends on it). -/
def banUser (parseDate : String → Option Int) (store : UserStore)
    (actorId targetId : String) (reason : String) (untilB : Option String) :
    Except (Nat × String) User × UserStore :=
  if ¬ isValidObjectId targetId then (.error (400, "Invalid user id"), store)
  else if actorId = targetId then (.error (400, "Cannot ban yourself."), store)
  else
    let bannedUntil := if truthyStr untilB then parseDate (untilB.getD "") else none
    match findById store targetId with
    | none => (.error (404, "User not found"), store)
    | some u =>
      let u2 := { u with
                  isBanned := true,
                  banReason := if reason = "" then "No reason provided" else reason,
                  bannedUntil := bannedUntil }
      (.ok u2, saveUser store targetId u2)

/-- POST /api/admin/users/:id/unban, backend/routes/admin.routes.js lines
131-152. -/
def unbanUser (store : UserStore) (targetId : String) :
    Except (Nat × String) User × UserStore :=
  if ¬ isValidObjectId targetId then (.error (400, "Invalid user id"), store)
  else
    match findById store targetId with
    | none => (.error (404, "User not found"), store)
    | some u =>
      let u2 := { u with isBanned := false, banReason := "", bannedUntil := none }
      (.ok u2, saveUser store targetId u2)

/-- PATCH /api/admin/users/:id/role, backend/routes/admin.routes.js lines
158-186: `["member","admin"].includes(role)` first, then ObjectId
validity, then the self-demotion rejection, then the update. -/
def setRole (store : UserStore) (actorId targetId : String)
    (role : Option String) : Except (Nat × String) User × UserStore :=
  if ¬ (role = some "member" ∨ role = some "admin") then
    (.error (400, "Invalid role"), store)
  else if ¬ isValidObjectId targetId then (.error (400, "Invalid user id"), store)
  else if actorId = targetId ∧ role ≠ some "admin" then
    (.error (400, "Cannot remove admin role from yourself."), store)
  else
    match findById store targetId with
    | none => (.error (404, "User not found"), store)
    | some u =>
      let u2 := { u with role := role.getD "" }
      (.ok u2, saveUser store targetId u2)

/-- Request body of POST /api/users/register; the nine destructured
fields, each defaulting to `""` when absent. -/
structure RegisterBody where
  firstName : String
  lastName : String
  username : String
  email : String
  phone : String
  country : String
  password : String
  dob : String
  gender : String
deriving DecidableEq, Repr

/-- POST /api/users/register, backend/routes/auth.routes.js lines 73-148:
require all nine fields truthy and password length ≥ 8, check email (lower
cased) then username uniqueness, hash the password (`hash` models
`bcrypt.hash`), store the new document (schema defaults `role = "member"`,
ban state cleared; the schema's `trim` setters are not modelled), and
return it through `sanitizeUser`. -/
def register (hash : String → String) (store : UserStore) (freshId : String)
    (b : RegisterBody) : Except (Nat × String) (List (String × JVal)) × UserStore :=
  if b.firstName = "" ∨ b.lastName = "" ∨ b.username = "" ∨ b.email = "" ∨
     b.phone = "" ∨ b.country = "" ∨ b.password = "" ∨ b.dob = "" ∨ b.gender = "" then
    (.error (400, "Missing required fields."), store)
  else if b.password.length < 8 then
    (.error (400, "Password must be at least 8 characters."), store)
  else
    match findByEmail store (strLower b.email) with
    | some _ => (.error (409, "Email already registered."), store)
    | none =>
      match findByUsername store b.username with
      | some _ => (.error (409, "Username already taken."), store)
      | none =>
        let newUser : User :=
          { firstName := b.firstName, lastName := b.lastName,
            username := b.username, email := strLower b.email,
            phone := b.phone, country := b.country,
            passwordHash := hash b.password, dob := b.dob, gender := b.gender,
            role := "member", isBanned := false, banReason := "",
            bannedUntil := none }
        (.ok (sanitizeUser newUser), store ++ [(freshId, newUser)])

/-- GET /api/users/me, backend/routes/auth.routes.js lines 203-214. -/
def getSelf (store : UserStore) (userId : Option String) :
    Except (Nat × String) (List (String × JVal)) :=
  if ¬ truthyStr userId then .error (401, "Unauthorized")
  else
    match findById store (userId.getD "") with
    | none => .error (404, "User not found")
    | some u => .ok (sanitizeUser u)

/-- Request body of PUT /api/users/me: the eight allow-listed fields
(`undefined` = not patched). -/
structure UpdateBody where
  firstName : Option String
  lastName : Option String
  username : Option String
  email : Option String
  phone : Option String
  country : Option String
  dob : Option String
  gender : Option String
deriving DecidableEq, Repr

/-- The effect of `findByIdAndUpdate(userId, updates)`: apply each present
allow-listed field.  A truthy email was lowercased before the update
(`updates.email = updates.email.toLowerCase()`); a present-but-empty email
is applied as given, matching the code. -/
def applyUpdates (b : UpdateBody) (u : User) : User :=
  { u with
    firstName := b.firstName.getD u.firstName,
    lastName := b.lastName.getD u.lastName,
    username := b.username.getD u.username,
    email := match b.email with
             | none => u.email
             | some e => if e = "" then e else strLower e,
    phone := b.phone.getD u.phone,
    country := b.country.getD u.country,
    dob := b.dob.getD u.dob,
    gender := b.gender.getD u.gender }

/-- PUT /api/users/me, backend/routes/auth.routes.js lines 220-270: build
the allow-listed update set, re-check email/username uniqueness excluding
the caller when those fields are truthy, apply the update, and return the
updated document through `sanitizeUser`. -/
def updateSelf (store : UserStore) (userId : Option String) (b : UpdateBody) :
    Except (Nat × String) (List (String × JVal)) × UserStore :=
  if ¬ truthyStr userId then (.error (401, "Unauthorized"), store)
  else
    let uid := userId.getD ""
    let emailTaken : Bool :=
      match b.email with
      | none => false
      | some e => e != "" &&
          (store.find? (fun p => p.2.email = strLower e ∧ p.1 ≠ uid)).isSome
    let usernameTaken : Bool :=
      match b.username with
      | none => false
      | some un => un != "" &&
          (store.find? (fun p => p.2.username = un ∧ p.1 ≠ uid)).isSome
    if emailTaken then (.error (409, "Email already in use."), store)
    else if usernameTaken then (.error (409, "Username already in use."), store)
    else
      match findById store uid with
      | none => (.error (404, "User not found"), store)
      | some u =>
        let u2 := applyUpdates b u
        (.ok (sanitizeUser u2), saveUser store uid u2)

/-- The characters escaped by both admin search handlers:
`q.replace(/[.*+?^$\x7b\x7d()|[\]\\]/g, "\\$&")`. -/
def metaChars : List Char :=
  ['.', '*', '+', '?', '^', '$', '\x7b', '\x7d', '(', ')', '|', '[', ']', '\\']

/-- One step of the escaping `replace`: prepend a backslash to a
metacharacter. -/
def escapeRegexChar (c : Char) : List Char :=
  if c ∈ metaChars then ['\\', c] else [c]

/-- The whole escaping `replace` over a query string. -/
def escapeRegex : List Char → List Char
  | [] => []
  | c :: s => escapeRegexChar c ++ escapeRegex s

/-- A regex atom of the fragment of JS regexes needed here: a literal
character or the wildcard `.`. -/
inductive RAtom where
  | lit (c : Char)
  | dot
deriving DecidableEq, Repr

/-- An atom, possibly under a Kleene star. -/
inductive RElem where
  | once (a : RAtom)
  | star (a : RAtom)
deriving DecidableEq, Repr

/-- Model of `new RegExp(pat, "i")` pattern compilation for the fragment:
backslash-escaped characters are literals, `.` is the wildcard, a
trailing `*` stars the preceding atom, and every other unescaped
metacharacter is out of the modelled fragment (`none`). -/
def parseRegex : List Char → Option (List RElem)
  | [] => some []
  | '\\' :: c :: '*' :: rest => (parseRegex rest).map (RElem.star (RAtom.lit c) :: ·)
  | '\\' :: c :: rest => (parseRegex rest).map (RElem.once (RAtom.lit c) :: ·)
  | '.' :: '*' :: rest => (parseRegex rest).map (RElem.star RAtom.dot :: ·)
  | '.' :: rest => (parseRegex rest).map (RElem.once RAtom.dot :: ·)
  | c :: '*' :: rest =>
      if c ∈ metaChars then none
      else (parseRegex rest).map (RElem.star (RAtom.lit c) :: ·)
  | c :: rest =>
      if c ∈ metaChars then none
      else (parseRegex rest).map (RElem.once (RAtom.lit c) :: ·)

/-- Whether an atom matches one character, under the `i` flag (and JS's
`.` not matching a newline). -/
def atomMatch (a : RAtom) (c : Char) : Bool :=
  match a with
  | .lit d => c.toLower == d.toLower
  | .dot => c != '\n'

/-- Matching of a starred atom: consume any number of `a`-matching
characters, then hand the rest of the input to the continuation `k`. -/
def starMatch (a : RAtom) (k : List Char → Bool) : List Char → Bool
  | [] => k []
  | c :: s => k (c :: s) || (atomMatch a c && starMatch a k s)

/-- Whether the element list matches some prefix of `s` (the rest of `s`
may be left over). -/
def prefMatch : List RElem → List Char → Bool
  | [], _ => true
  | RElem.once _ :: _, [] => false
  | RElem.once a :: es, c :: s => atomMatch a c && prefMatch es s
  | RElem.star a :: es, s => starMatch a (prefMatch es) s

/-- Unanchored matching, as `re.test(s)`: the elements match a prefix of
some suffix of `s`. -/
def searchMatch (r : List RElem) : List Char → Bool
  | [] => prefMatch r []
  | c :: s => prefMatch r (c :: s) || searchMatch r s

/-- `new RegExp(pat, "i").test(s)` for patterns inside the modelled
fragment. -/
def regexTest (pat : List Char) (s : List Char) : Bool :=
  match parseRegex pat with
  | some r => searchMatch r s
  | none => false

/-- Case-folded character list. -/
def lowerL (s : List Char) : List Char := s.map Char.toLower

/-- The spec's notion the filters must realize: `q` occurs in `s` as a
literal case-insensitive substring. -/
def ContainsCI (q s : List Char) : Prop := lowerL q <:+: lowerL s

/-- The `$or` filter of GET /api/admin/users, one escaped pattern tested
against the five searched fields. -/
def userSearchHit (q : String) (u : User) : Bool :=
  regexTest (escapeRegex q.toList) u.email.toList ||
  regexTest (escapeRegex q.toList) u.username.toList ||
  regexTest (escapeRegex q.toList) u.firstName.toList ||
  regexTest (escapeRegex q.toList) u.lastName.toList ||
  regexTest (escapeRegex q.toList) u.phone.toList

/-- The `$or` filter of GET /api/admin/bookings, tested against the three
searched fields. -/
def bookingSearchHit (q : String) (b : Booking) : Bool :=
  regexTest (escapeRegex q.toList) b.notes.toList ||
  regexTest (escapeRegex q.toList) b.platformDetails.toList ||
  regexTest (escapeRegex q.toList) b.platform.toList

/-- The page of sanitized records returned by GET /api/admin/users: trim
the query, filter when it is truthy, skip/take the page window, and
delete `passwordHash` from each record.  The `createdAt` sort is not
modelled (the store's order stands in for it). -/
def listUsersPage (store : UserStore) (qraw : Option String) (skip lim : Nat) :
    List (List (String × JVal)) :=
  let q := strTrim (jsOr qraw "")
  ((((store.map Prod.snd).filter
      (fun u => if q = "" then true else userSearchHit q u)).drop skip).take lim).map
    sanitizeUser

/-- A concrete member user, for witnesses. -/
def baseUser : User :=
  { firstName := "Ada", lastName := "Love", username := "ada",
    email := "ada@example.com", phone := "123456", country := "FR",
    passwordHash := "bcrypt-digest", dob := "2000-01-01", gender := "f",
    role := "member", isBanned := false, banReason := "", bannedUntil := none }

/-- A user banned while their role is still `admin`. -/
def bannedAdmin : User :=
  { baseUser with role := "admin", isBanned := true, banReason := "abuse" }

/-- A banned ordinary member. -/
def bannedMember : User :=
  { baseUser with isBanned := true, banReason := "spam", bannedUntil := some 1700000000 }

/-- A concrete stand-in for `new Date`: nonempty decimal digit strings
parse to their value, all else is an Invalid Date. -/
def pd0 : String → Option Int := fun s =>
  if s.toList ≠ [] ∧ s.toList.all Char.isDigit then
    some (Int.ofNat (s.toList.foldl (fun a c => a * 10 + (c.toNat - 48)) 0))
  else none

/-- A concrete booking whose `rescheduledTo` is set. -/
def bk0 : Booking :=
  { user := "u1", type := "session", duration := 30, platform := "zoom",
    platformDetails := "", scheduledAt := 1700000000, status := "rescheduled",
    notes := "pls", adminNote := "", rescheduledTo := some 42 }

/-- A one-booking store under a well-formed (12-character) id. -/
def bstore0 : BookingStore := [("dddddddddddd", bk0)]

/-- A create request whose `duration` is negative (truthy in JS). -/
def negBody : CreateBody :=
  { type := some "session", duration := some (-30), platform := some "zoom",
    platformDetails := "", scheduledAt := some "1700000000", notes := "" }

/-- The booking the backend stores for `negBody`. -/
def negBooking : Booking :=
  { user := "u1", type := "session", duration := -30, platform := "zoom",
    platformDetails := "", scheduledAt := 1700000000, status := "pending",
    notes := "", adminNote := "", rescheduledTo := none }

/-- A create request whose `duration` is `0` (falsy in JS). -/
def zeroDurationBody : CreateBody := { negBody with duration := some 0 }

/-! Theorems.  Each claim's theorem carries the claim id in its doc
comment; helper lemmas are shared. -/

/-- The bearer regex accepts `Bearer ` followed by a nonempty token and
yields the token. -/
theorem matchBearer_append (token : String) (h : token ≠ "") :
    matchBearer ("Bearer " ++ token) = some token := by
  have hd : ("Bearer " ++ token).toList = "Bearer ".toList ++ token.toList :=
    String.data_append ..
  have hne : token.toList ≠ [] := by
    intro hn
    exact h (String.ext (by simpa using hn))
  unfold matchBearer
  rw [hd, List.take_left' (by decide), List.drop_left' (by decide),
    if_pos ⟨rfl, hne⟩]
  exact congrArg some (String.ext rfl)

/-- C1 (counterexample): the admin guard does not consult `isBanned`.  A
user banned after token issuance, whose role is still `admin`, passes the
guard: with a fresh store record that is banned, the guard still calls
`next`. -/
theorem adminAuth_banned_admin_passes :
    bannedAdmin.isBanned = true ∧
    adminAuth (fun _ => some ⟨"aaaaaaaaaaaaaaaaaaaaaaaa", "ada@example.com", "ada", "admin"⟩)
        [("aaaaaaaaaaaaaaaaaaaaaaaa", bannedAdmin)] (some "Bearer tok") =
      .next (⟨"aaaaaaaaaaaaaaaaaaaaaaaa", "ada@example.com", "ada", "admin"⟩, bannedAdmin) := by
  exact ⟨rfl, by decide⟩

/-- C1 (amended): for every admin-guarded request carrying a
cryptographically valid token, the guard re-fetches the user by id and
decides on the fresh record: a deleted user fails Unauthorized and a
non-admin role fails Forbidden — but a ban alone is not checked, so a
banned user whose fresh role is still `admin` is granted access. -/
theorem adminAuth_refetch (verify : String → Option TokenPayload)
    (store : UserStore) (token : String) (payload : TokenPayload)
    (htok : token ≠ "") (hv : verify token = some payload) (hid : payload.id ≠ "") :
    (findById store payload.id = none →
      adminAuth verify store (some ("Bearer " ++ token)) = .err 401 "Unauthorized") ∧
    (∀ u, findById store payload.id = some u → u.role ≠ "admin" →
      adminAuth verify store (some ("Bearer " ++ token)) = .err 403 "Forbidden: admin only") ∧
    (∀ u, findById store payload.id = some u → u.role = "admin" →
      adminAuth verify store (some ("Bearer " ++ token)) = .next (payload, u)) := by
  refine ⟨fun hu => ?_, fun u hu hr => ?_, fun u hu hr => ?_⟩
  · simp [adminAuth, matchBearer_append token htok, hv, hid, hu]
  · simp [adminAuth, matchBearer_append token htok, hv, hid, hu, hr]
  · simp [adminAuth, matchBearer_append token htok, hv, hid, hu, hr]

/-- Witness for `adminAuth_refetch`: a concrete member is rejected with
403 by the admin guard. -/
theorem adminAuth_refetch_witness :
    adminAuth (fun _ => some ⟨"bbbbbbbbbbbb", "ada@example.com", "ada", "admin"⟩)
        [("bbbbbbbbbbbb", baseUser)] (some ("Bearer " ++ "t")) =
      .err 403 "Forbidden: admin only" := by
  exact (adminAuth_refetch (fun _ => some ⟨"bbbbbbbbbbbb", "ada@example.com", "ada", "admin"⟩)
    [("bbbbbbbbbbbb", baseUser)] "t" ⟨"bbbbbbbbbbbb", "ada@example.com", "ada", "admin"⟩
    (by decide) rfl (by decide)).2.1 baseUser rfl (by decide)

/-- C2: a banned user's login fails 403 Forbidden carrying the ban reason
(defaulted when empty) and the `until` timestamp, before the password is
ever compared — for every password and every comparator outcome — and no
token is issued. -/
theorem login_banned_forbidden (compare : String → String → Bool)
    (store : UserStore) (email password uid : String) (u : User)
    (he : email ≠ "") (hp : password ≠ "")
    (hu : findByEmail store (strTrim (strLower email)) = some (uid, u))
    (hb : u.isBanned = true) :
    login compare store email password =
      .banned "Account is banned."
        (if u.banReason = "" then "No reason provided" else u.banReason)
        u.bannedUntil ∧
    ∀ t su, login compare store email password ≠ .ok t su := by
  have hmain : login compare store email password =
      .banned "Account is banned."
        (if u.banReason = "" then "No reason provided" else u.banReason)
        u.bannedUntil := by
    simp [login, he, hp, hu, hb]
  exact ⟨hmain, fun t su => by simp [hmain]⟩

/-- Witness for `login_banned_forbidden`: a banned member with the correct
password (the comparator accepts everything) still gets the 403 ban
response. -/
theorem login_banned_forbidden_witness :
    login (fun _ _ => true) [("cccccccccccc", bannedMember)] "ada@example.com" "correct-pw" =
      .banned "Account is banned." "spam" (some 1700000000) := by
  have h := (login_banned_forbidden (fun _ _ => true) [("cccccccccccc", bannedMember)]
    "ada@example.com" "correct-pw" "cccccccccccc" bannedMember
    (by decide) (by decide) (by decide) rfl).1
  simpa [bannedMember, baseUser] using h

/-- C3: create initializes `status = "pending"` and `rescheduledTo =
null`; approve and cancel set their status and clear `rescheduledTo` even
if previously set; a valid reschedule stores the parsed timestamp; and
every booking produced by these operations satisfies the invariant that
`rescheduledTo` is non-null only while `status = "rescheduled"`. -/
theorem booking_lifecycle_invariant (pd : String → Option Int)
    (store : BookingStore) (id note uid : String) (rto : Option String)
    (b : Booking) (body : CreateBody)
    (hid : isValidObjectId id = true) (hb : findBookingById store id = some b) :
    (∀ bk, createBooking pd uid body = .ok bk →
      bk.status = "pending" ∧ bk.rescheduledTo = none ∧ bookingInvariant bk) ∧
    (adminTransition pd store id (some "approve") note rto).1 =
      .ok { b with status := "approved", adminNote := note, rescheduledTo := none } ∧
    (adminTransition pd store id (some "cancel") note rto).1 =
      .ok { b with status := "cancelled", adminNote := note, rescheduledTo := none } ∧
    (∀ s t, rto = some s → s ≠ "" → pd s = some t →
      (adminTransition pd store id (some "reschedule") note rto).1 =
        .ok { b with status := "rescheduled", rescheduledTo := some t, adminNote := note }) ∧
    (∀ act res, (adminTransition pd store id act note rto).1 = .ok res →
      bookingInvariant res) := by
  refine ⟨?_, ?_, ?_, ?_, ?_⟩
  · intro bk h
    rw [createBooking] at h
    split at h
    · simp at h
    · split at h
      · simp at h
      · simp only [Except.ok.injEq] at h
        subst h
        simp [bookingInvariant]
  · simp [adminTransition, hid, hb]
  · simp [adminTransition, hid, hb]
  · intro s t hs hne hpd
    subst hs
    simp [adminTransition, hid, hb, truthyStr, hne, hpd]
  · intro act res h
    by_cases h1 : act = some "approve"
    · simp [adminTransition, hid, hb, h1] at h
      subst h
      simp [bookingInvariant]
    · by_cases h2 : act = some "cancel"
      · simp [adminTransition, hid, hb, h1, h2] at h
        subst h
        simp [bookingInvariant]
      · by_cases h3 : act = some "reschedule"
        · by_cases ht : truthyStr rto
          · cases hdt : pd (rto.getD "") with
            | none => simp [adminTransition, hid, hb, h1, h2, h3, ht, hdt] at h
            | some dt =>
              simp [adminTransition, hid, hb, h1, h2, h3, ht, hdt] at h
              subst h
              simp [bookingInvariant]
          · simp [adminTransition, hid, hb, h1, h2, h3, ht] at h
        · simp [adminTransition, hid, hb, h1, h2, h3] at h

/-- Witness for `booking_lifecycle_invariant`: approving a concrete
rescheduled booking clears its `rescheduledTo`. -/
theorem booking_lifecycle_invariant_witness :
    (adminTransition pd0 bstore0 "dddddddddddd" (some "approve") "ok" none).1 =
      .ok { bk0 with status := "approved", adminNote := "ok", rescheduledTo := none } :=
  (booking_lifecycle_invariant pd0 bstore0 "dddddddddddd" "ok" "u1" none bk0
    negBody (by decide) (by decide)).2.1

/-- C4: adminTransition fails 400 on a malformed booking id, 404 on a
well-formed id with no booking, 400 on a reschedule whose `rescheduledTo`
is missing or unparsable, and 400 on any unknown action — the booking
store being left unchanged in every error case. -/
theorem adminTransition_errors (pd : String → Option Int) (store : BookingStore)
    (id note : String) (action : Option String) (rto : Option String) :
    (isValidObjectId id = false →
      adminTransition pd store id action note rto =
        (.error (400, "Invalid booking id"), store)) ∧
    (isValidObjectId id = true → findBookingById store id = none →
      adminTransition pd store id action note rto =
        (.error (404, "Booking not found"), store)) ∧
    (∀ b, isValidObjectId id = true → findBookingById store id = some b →
      (truthyStr rto = false ∨ pd (rto.getD "") = none) →
      adminTransition pd store id (some "reschedule") note rto =
        (.error (400, "Invalid rescheduledTo date"), store)) ∧
    (∀ b, isValidObjectId id = true → findBookingById store id = some b →
      action ≠ some "approve" → action ≠ some "cancel" →
      action ≠ some "reschedule" →
      adminTransition pd store id action note rto =
        (.error (400, "Invalid action"), store)) := by
  refine ⟨fun h1 => ?_, fun h1 h2 => ?_, fun b h1 h2 h3 => ?_,
    fun b h1 h2 h3 h4 h5 => ?_⟩
  · simp [adminTransition, h1]
  · simp [adminTransition, h1, h2]
  · rcases h3 with h3 | h3
    · simp [adminTransition, h1, h2, h3]
    · by_cases ht : truthyStr rto
      · simp [adminTransition, h1, h2, ht, h3]
      · simp [adminTransition, h1, h2, ht]
  · simp [adminTransition, h1, h2, h3, h4, h5]

/-- Witness for `adminTransition_errors`: a malformed id is rejected. -/
theorem adminTransition_errors_witness :
    adminTransition pd0 [] "zz" none "" none =
      (.error (400, "Invalid booking id"), ([] : BookingStore)) :=
  (adminTransition_errors pd0 [] "zz" "" none none).1 (by decide)

/-- C5: self-targeting moderation is rejected with 400 ValidationError
and the store is unchanged — self-delete, self-ban, and setting one's own
role to `member`; a role outside member/admin is rejected for every
target. -/
theorem moderation_self_protection (pd : String → Option Int) (store : UserStore)
    (actorId targetId reason : String) (untilB : Option String)
    (role : Option String) (heq : actorId = targetId)
    (hv : isValidObjectId targetId = true) :
    deleteUser store actorId targetId =
      (.error (400, "Cannot delete your own admin account."), store) ∧
    banUser pd store actorId targetId reason untilB =
      (.error (400, "Cannot ban yourself."), store) ∧
    (role = some "member" →
      setRole store actorId targetId role =
        (.error (400, "Cannot remove admin role from yourself."), store)) ∧
    (¬ (role = some "member" ∨ role = some "admin") →
      ∀ a t, setRole store a t role = (.error (400, "Invalid role"), store)) := by
  subst heq
  refine ⟨?_, ?_, fun hm => ?_, fun hrole a t => ?_⟩
  · simp [deleteUser, hv]
  · simp [banUser, hv]
  · rw [hm]; simp [setRole, hv]
  · simp [setRole, hrole]

/-- Witness for `moderation_self_protection`: a concrete admin deleting
their own account gets 400 and the store keeps their record. -/
theorem moderation_self_protection_witness :
    deleteUser [("aaaaaaaaaaaaaaaaaaaaaaaa", bannedAdmin)]
        "aaaaaaaaaaaaaaaaaaaaaaaa" "aaaaaaaaaaaaaaaaaaaaaaaa" =
      (.error (400, "Cannot delete your own admin account."),
        [("aaaaaaaaaaaaaaaaaaaaaaaa", bannedAdmin)]) :=
  (moderation_self_protection pd0 [("aaaaaaaaaaaaaaaaaaaaaaaa", bannedAdmin)]
    "aaaaaaaaaaaaaaaaaaaaaaaa" "aaaaaaaaaaaaaaaaaaaaaaaa" "" none none rfl
    (by decide)).1

/-- C9 (counterexample): the presence check `!duration` is a truthiness
check, so a negative duration is accepted: a create request with
`duration = -30` succeeds and stores a non-positive duration. -/
theorem createBooking_accepts_negative_duration :
    createBooking pd0 "u1" negBody = .ok negBooking ∧
    negBooking.duration = -30 ∧ ¬ (0 : Int) < negBooking.duration := by
  refine ⟨rfl, rfl, by decide⟩

/-- C9 (amended): every booking accepted and stored by create has a
nonzero — not necessarily positive — duration: `0` is falsy and is
rejected as a missing field, but negative durations pass. -/
theorem createBooking_duration_nonzero (pd : String → Option Int)
    (uid : String) (body : CreateBody) (bk : Booking)
    (h : createBooking pd uid body = .ok bk) : bk.duration ≠ 0 := by
  rw [createBooking] at h
  split at h
  · simp at h
  · next hc =>
    rw [not_not] at hc
    obtain ⟨-, hdur, -, -⟩ := hc
    split at h
    · simp at h
    · simp only [Except.ok.injEq] at h
      subst h
      revert hdur
      match body.duration with
      | none => simp [truthyInt]
      | some n => simp [truthyInt]

/-- Witness for `createBooking_duration_nonzero`: the concrete stored
negative-duration booking indeed has nonzero duration. -/
theorem createBooking_duration_nonzero_witness : negBooking.duration ≠ 0 :=
  createBooking_duration_nonzero pd0 "u1" negBody negBooking rfl

/-- C10: the required-field check of booking create is by truthiness:
`duration = 0` or an empty `type`/`platform`/`scheduledAt` string fails
with the same 400 "Missing required fields." as genuinely absent fields,
so no booking with duration 0 can be created. -/
theorem createBooking_truthiness (pd : String → Option Int) (uid : String)
    (body : CreateBody)
    (h : body.type = some "" ∨ body.duration = some 0 ∨
         body.platform = some "" ∨ body.scheduledAt = some "") :
    createBooking pd uid body = .error (400, "Missing required fields.") ∧
    createBooking pd uid
        { body with type := none, duration := none, platform := none,
                    scheduledAt := none } =
      .error (400, "Missing required fields.") ∧
    ∀ bk, createBooking pd uid body ≠ .ok bk := by
  have habsent : createBooking pd uid
      { body with type := none, duration := none, platform := none,
                  scheduledAt := none } =
      .error (400, "Missing required fields.") := by
    rw [createBooking]
    simp [truthyStr, truthyInt]
  have hmain : createBooking pd uid body =
      .error (400, "Missing required fields.") := by
    rw [createBooking]
    rcases h with h | h | h | h <;> rw [if_pos (by simp [h, truthyStr, truthyInt])]
  exact ⟨hmain, habsent, fun bk => by simp [hmain]⟩

/-- Witness for `createBooking_truthiness`: the concrete zero-duration
request is rejected as missing fields. -/
theorem createBooking_truthiness_witness :
    createBooking pd0 "u1" zeroDurationBody =
      .error (400, "Missing required fields.") :=
  (createBooking_truthiness pd0 "u1" zeroDurationBody
    (Or.inr (Or.inl rfl))).1

/-- C7 (counterexample): `parseInt` of a non-numeric parameter is NaN and
`Math.max`/`Math.min` propagate it, so the effective page and limit are
not clamped on such a request: no integer in [5,100] is produced. -/
theorem pagination_nan_unclamped :
    effectiveLimit "50" (some "x") = none ∧
    effectivePage (some "x") = none ∧
    ¬ ∃ l : Int, effectiveLimit "50" (some "x") = some l ∧ 5 ≤ l ∧ l ≤ 100 := by
  refine ⟨rfl, rfl, ?_⟩
  rintro ⟨l, hl, -, -⟩
  rw [show effectiveLimit "50" (some "x") = none from rfl] at hl
  exact Option.noConfusion hl

/-- C7 (amended): whenever the page and limit parameters are absent or
numeric (parse to an integer), the effective page is at least 1 and the
effective limit is clamped to [5,100]; 1000 clamps to 100, 1 clamps to 5,
and the defaults are 50 for bookings and 20 for users — but a non-numeric
parameter yields NaN, which escapes the clamp. -/
theorem pagination_clamped (dflt : String) (qpage qlimit : Option String)
    (hp : ∃ n, parseIntJS (jsOr qpage "1") = some n)
    (hl : ∃ n, parseIntJS (jsOr qlimit dflt) = some n) :
    (∃ p, effectivePage qpage = some p ∧ 1 ≤ p) ∧
    (∃ l, effectiveLimit dflt qlimit = some l ∧ 5 ≤ l ∧ l ≤ 100) ∧
    effectiveLimit "50" (some "1000") = some 100 ∧
    effectiveLimit "50" (some "1") = some 5 ∧
    effectiveLimit "50" none = some 50 ∧
    effectiveLimit "20" none = some 20 ∧
    effectivePage (some "0") = some 1 ∧
    effectivePage (some "-3") = some 1 := by
  obtain ⟨n, hn⟩ := hp
  obtain ⟨m, hm⟩ := hl
  refine ⟨⟨max 1 n, ?_, le_max_left 1 n⟩,
    ⟨min 100 (max 5 m), ?_, ?_, min_le_left 100 (max 5 m)⟩,
    rfl, rfl, rfl, rfl, rfl, rfl⟩
  · simp [effectivePage, jsMax, hn]
  · simp [effectiveLimit, jsMax, jsMin, hm]
  · exact le_min (by norm_num) (le_max_left 5 m)

/-- Witness for `pagination_clamped`: concrete numeric parameters are
clamped as specified. -/
theorem pagination_clamped_witness :
    effectiveLimit "50" (some "1000") = some 100 ∧
    effectiveLimit "50" (some "1") = some 5 :=
  ⟨(pagination_clamped "50" (some "2") (some "7") ⟨2, rfl⟩ ⟨7, rfl⟩).2.2.1,
   (pagination_clamped "50" (some "2") (some "7") ⟨2, rfl⟩ ⟨7, rfl⟩).2.2.2.1⟩

/-- C6: no user record handed to a client by register, login, getSelf,
updateSelf, or the admin user listing carries the `passwordHash` key,
while every other stored field survives sanitization unchanged: each
success payload is `sanitizeUser` of a stored record, and `sanitizeUser`
removes exactly the `passwordHash` entry. -/
theorem user_hash_never_serialized :
    (∀ u : User, "passwordHash" ∉ (sanitizeUser u).map Prod.fst ∧
      ∀ k v, k ≠ "passwordHash" →
        ((k, v) ∈ sanitizeUser u ↔ (k, v) ∈ u.toObject)) ∧
    (∀ hash store freshId b res store2,
      register hash store freshId b = (.ok res, store2) →
      ∃ u : User, res = sanitizeUser u) ∧
    (∀ compare store email password t res,
      login compare store email password = .ok t res →
      ∃ u : User, res = sanitizeUser u) ∧
    (∀ store uid res, getSelf store uid = .ok res →
      ∃ u : User, res = sanitizeUser u) ∧
    (∀ store uid b res store2, updateSelf store uid b = (.ok res, store2) →
      ∃ u : User, res = sanitizeUser u) ∧
    (∀ store qraw skip lim res, res ∈ listUsersPage store qraw skip lim →
      ∃ u : User, res = sanitizeUser u) := by
  refine ⟨?_, ?_, ?_, ?_, ?_, ?_⟩
  · intro u
    constructor
    · simp [sanitizeUser, User.toObject]
    · intro k v hk
      simp [sanitizeUser, List.mem_filter, hk]
  · intro hash store freshId b res store2 h
    rw [register] at h
    split at h
    · simp at h
    · split at h
      · simp at h
      · split at h
        · simp at h
        · split at h
          · simp at h
          · simp only [Prod.mk.injEq, Except.ok.injEq] at h
            exact ⟨_, h.1.symm⟩
  · intro compare store email password t res h
    rw [login] at h
    dsimp only at h
    repeat' split at h
    all_goals first
      | (simp only [LoginResult.ok.injEq] at h; exact ⟨_, h.2.symm⟩)
      | simp at h
  · intro store uid res h
    rw [getSelf] at h
    split at h
    · simp at h
    · split at h
      · simp at h
      · simp only [Except.ok.injEq] at h
        exact ⟨_, h.symm⟩
  · intro store uid b res store2 h
    rw [updateSelf] at h
    dsimp only at h
    repeat' split at h
    all_goals first
      | (simp only [Prod.mk.injEq, Except.ok.injEq] at h; exact ⟨_, h.1.symm⟩)
      | simp at h
  · intro store qraw skip lim res h
    simp only [listUsersPage, List.mem_map] at h
    obtain ⟨u, -, hu⟩ := h
    exact ⟨u, hu.symm⟩

/-- Witness for `user_hash_never_serialized`: the sanitized concrete user
has no `passwordHash` key and keeps its `role` entry. -/
theorem user_hash_never_serialized_witness :
    "passwordHash" ∉ (sanitizeUser baseUser).map Prod.fst ∧
    (("role", JVal.str "member") ∈ sanitizeUser baseUser ↔
      ("role", JVal.str "member") ∈ baseUser.toObject) :=
  ⟨(user_hash_never_serialized.1 baseUser).1,
   (user_hash_never_serialized.1 baseUser).2 "role" (JVal.str "member") (by decide)⟩

/-- The escaped form of a query never starts with a star. -/
theorem escapeRegex_head_ne_star (q : List Char) :
    (escapeRegex q).head? ≠ some '*' := by
  cases q with
  | nil => simp [escapeRegex]
  | cons c s =>
    by_cases hc : c ∈ metaChars
    · simp [escapeRegex, escapeRegexChar, hc]
    · have hcs : c ≠ '*' := fun h => hc (by rw [h]; decide)
      simp [escapeRegex, escapeRegexChar, hc, hcs]

/-- Escaping produces the empty pattern only from the empty query. -/
theorem escapeRegex_eq_nil (q : List Char) (h : escapeRegex q = []) : q = [] := by
  cases q with
  | nil => rfl
  | cons c s =>
    exfalso
    by_cases hc : c ∈ metaChars <;> simp [escapeRegex, escapeRegexChar, hc] at h

/-- Reduction: a final escaped character parses as its literal. -/
theorem parseRegex_esc_nil (c : Char) :
    parseRegex ['\\', c] = some [RElem.once (RAtom.lit c)] := by
  simp [parseRegex]

/-- Reduction: an escaped character not followed by `*` parses as its
literal. -/
theorem parseRegex_esc_cons (c e : Char) (t : List Char) (he : e ≠ '*') :
    parseRegex ('\\' :: c :: e :: t) =
      (parseRegex (e :: t)).map (RElem.once (RAtom.lit c) :: ·) := by
  simp [parseRegex, he]

/-- Reduction: a final plain character parses as its literal. -/
theorem parseRegex_lit_nil (c : Char) (hc : c ∉ metaChars) :
    parseRegex [c] = some [RElem.once (RAtom.lit c)] := by
  have h1 : c ≠ '\\' := fun h => hc (by rw [h]; decide)
  have h2 : c ≠ '.' := fun h => hc (by rw [h]; decide)
  simp [parseRegex, h1, h2, hc]

/-- Reduction: a plain character not followed by `*` parses as its
literal. -/
theorem parseRegex_lit_cons (c e : Char) (t : List Char) (hc : c ∉ metaChars)
    (he : e ≠ '*') :
    parseRegex (c :: e :: t) =
      (parseRegex (e :: t)).map (RElem.once (RAtom.lit c) :: ·) := by
  have h1 : c ≠ '\\' := fun h => hc (by rw [h]; decide)
  have h2 : c ≠ '.' := fun h => hc (by rw [h]; decide)
  simp [parseRegex, h1, h2, hc, he]

/-- Parsing an escaped query yields exactly the sequence of unstarred
literals of the query. -/
theorem parseRegex_escape (q : List Char) :
    parseRegex (escapeRegex q) =
      some (q.map fun c => RElem.once (RAtom.lit c)) := by
  induction q with
  | nil => rfl
  | cons c s ih =>
    have hhead := escapeRegex_head_ne_star s
    by_cases hc : c ∈ metaChars
    · have hE : escapeRegex (c :: s) = '\\' :: c :: escapeRegex s := by
        simp [escapeRegex, escapeRegexChar, hc]
      rw [hE]
      cases hes : escapeRegex s with
      | nil =>
        have hs : s = [] := escapeRegex_eq_nil s hes
        subst hs
        simp [parseRegex_esc_nil]
      | cons e t =>
        have he : e ≠ '*' := by
          rw [hes] at hhead
          simpa using hhead
        rw [parseRegex_esc_cons c e t he, ← hes, ih]
        simp
    · have hE : escapeRegex (c :: s) = c :: escapeRegex s := by
        simp [escapeRegex, escapeRegexChar, hc]
      rw [hE]
      cases hes : escapeRegex s with
      | nil =>
        have hs : s = [] := escapeRegex_eq_nil s hes
        subst hs
        simp [parseRegex_lit_nil c hc]
      | cons e t =>
        have he : e ≠ '*' := by
          rw [hes] at hhead
          simpa using hhead
        rw [parseRegex_lit_cons c e t hc he, ← hes, ih]
        simp

/-- A sequence of unstarred literals matches a prefix of `s` exactly when
the case-folded query is a prefix of the case-folded input. -/
theorem prefMatch_lits (q : List Char) : ∀ s : List Char,
    (prefMatch (q.map fun c => RElem.once (RAtom.lit c)) s = true ↔
      lowerL q <+: lowerL s) := by
  induction q with
  | nil => intro s; simp [prefMatch, lowerL]
  | cons c q ih =>
    intro s
    cases s with
    | nil => simp [prefMatch, lowerL]
    | cons d s =>
      simp only [List.map_cons, prefMatch, atomMatch, Bool.and_eq_true,
        beq_iff_eq, lowerL, List.cons_prefix_cons]
      constructor
      · rintro ⟨h1, h2⟩
        exact ⟨h1.symm, (ih s).mp h2⟩
      · rintro ⟨h1, h2⟩
        exact ⟨h1.symm, (ih s).mpr h2⟩

/-- Unanchored matching succeeds exactly when some suffix of the input
has a matching prefix. -/
theorem searchMatch_iff (r : List RElem) : ∀ s : List Char,
    (searchMatch r s = true ↔ ∃ t, t <:+ s ∧ prefMatch r t = true) := by
  intro s
  induction s with
  | nil =>
    simp only [searchMatch]
    constructor
    · intro h
      exact ⟨[], List.suffix_refl [], h⟩
    · rintro ⟨t, ht, hp⟩
      rw [List.suffix_nil.mp ht] at hp
      exact hp
  | cons c s ih =>
    simp only [searchMatch, Bool.or_eq_true, ih]
    constructor
    · rintro (h | ⟨t, ht, hp⟩)
      · exact ⟨c :: s, List.suffix_refl _, h⟩
      · exact ⟨t, ht.trans (List.suffix_cons c s), hp⟩
    · rintro ⟨t, ht, hp⟩
      rcases List.suffix_cons_iff.mp ht with rfl | ht'
      · exact Or.inl hp
      · exact Or.inr ⟨t, ht', hp⟩

/-- Testing the escaped query against an input is exactly literal
case-insensitive substring containment. -/
theorem regexTest_escape_iff (q s : List Char) :
    regexTest (escapeRegex q) s = true ↔ ContainsCI q s := by
  simp only [regexTest, parseRegex_escape]
  rw [searchMatch_iff]
  constructor
  · rintro ⟨t, ht, hp⟩
    rw [prefMatch_lits] at hp
    exact List.infix_iff_prefix_suffix.mpr ⟨lowerL t, hp, ht.map Char.toLower⟩
  · intro h
    rcases List.infix_iff_prefix_suffix.mp h with ⟨t', hpre, hsuf⟩
    obtain ⟨pre, hsplit⟩ := hsuf
    obtain ⟨l₁, l₂, rfl, -, hmap₂⟩ :=
      List.append_eq_map_iff.mp
        (show pre ++ t' = List.map Char.toLower s from hsplit)
    refine ⟨l₂, ⟨l₁, rfl⟩, ?_⟩
    rw [prefMatch_lits]
    rw [show lowerL l₂ = t' from hmap₂]
    exact hpre

/-- C8: every regex metacharacter of a search query is escaped before the
pattern is built, so the admin search filters test exactly literal
case-insensitive substring containment of the query in each searched
field; in particular `a.*b` matches only the literal text `a.*b`, never
as a wildcard. -/
theorem search_query_literal :
    (∀ q s : List Char, regexTest (escapeRegex q) s = true ↔ ContainsCI q s) ∧
    (∀ (q : String) (u : User), userSearchHit q u = true ↔
      (ContainsCI q.toList u.email.toList ∨ ContainsCI q.toList u.username.toList ∨
       ContainsCI q.toList u.firstName.toList ∨ ContainsCI q.toList u.lastName.toList ∨
       ContainsCI q.toList u.phone.toList)) ∧
    (∀ (q : String) (b : Booking), bookingSearchHit q b = true ↔
      (ContainsCI q.toList b.notes.toList ∨
       ContainsCI q.toList b.platformDetails.toList ∨
       ContainsCI q.toList b.platform.toList)) ∧
    regexTest (escapeRegex "a.*b".toList) "axxxb".toList = false ∧
    regexTest (escapeRegex "a.*b".toList) "za.*b!".toList = true := by
  refine ⟨regexTest_escape_iff, ?_, ?_, by decide, by decide⟩
  · intro q u
    simp [userSearchHit, Bool.or_eq_true, regexTest_escape_iff, or_assoc]
  · intro q b
    simp [bookingSearchHit, Bool.or_eq_true, regexTest_escape_iff, or_assoc]

end Agape
